import Mathlib

/-!
Verification of the yodel frontend job-state synchronization client
(src/frontend/src/App.tsx), shallowly embedded in Lean.

The client keeps two job lists (`pendingJobs`, `completedJobs`), a
location catalog and a connection flag.  Push messages are JSON
envelopes whose keys are tested for truthiness; REST snapshot fetches
populate the lists once; submissions classify the HTTP response.
-/

/-- A named download destination (`interface Location`). -/
structure Location where
  name : String
  path : String
deriving DecidableEq, Repr

/-- Job status (`"Finished" | "InProgress" | { Failed: string }`). -/
inductive Status where
  | Finished : Status
  | InProgress : Status
  | Failed (reason : String) : Status
deriving DecidableEq, Repr

/-- One download task (`interface Job`).  `startedOn` is an abstract
timestamp; `url` is an opaque string. -/
structure Job where
  url : String
  title : Option String
  location : Location
  startedOn : Nat
  status : Status
deriving DecidableEq, Repr

/-- A parsed JSON value as the message handler can receive it in a
field of the push envelope: primitives, an array of jobs, or a payload
object carrying optional `url` and `reason` fields. -/
inductive JsVal where
  | jsNull : JsVal
  | jsBool (b : Bool) : JsVal
  | jsNum (n : Int) : JsVal
  | jsStr (s : String) : JsVal
  | jsJobArr (jobs : List Job) : JsVal
  | jsObj (url : Option String) (reason : Option String) : JsVal
deriving DecidableEq, Repr

/-- JavaScript truthiness of a value: `null`, `false`, `0` and `""`
are falsy; arrays and objects are always truthy. -/
def JsVal.truthy : JsVal → Bool
  | .jsNull => false
  | .jsBool b => b
  | .jsNum n => n != 0
  | .jsStr s => s != ""
  | .jsJobArr _ => true
  | .jsObj _ _ => true

/-- Property access `v.url`: present only on objects, otherwise
undefined (`none`). -/
def JsVal.getUrl : JsVal → Option String
  | .jsObj url _ => url
  | _ => none

/-- Property access `v.reason`: present only on objects, otherwise
undefined (`none`). -/
def JsVal.getReason : JsVal → Option String
  | .jsObj _ reason => reason
  | _ => none

/-- Truthiness of an envelope field: an absent key reads as
`undefined`, which is falsy. -/
def truthyO : Option JsVal → Bool
  | some v => v.truthy
  | none => false

/-- The parsed push envelope: each of the four keys may be absent
(`none`) or present with an arbitrary JSON value. -/
structure PushMessage where
  PendingJobs : Option JsVal
  CompletedJobs : Option JsVal
  Finished : Option JsVal
  Failed : Option JsVal
deriving DecidableEq, Repr

/-- Severity of a toast (`type:` field of the `toast` call). -/
inductive ToastType where
  | success : ToastType
  | error : ToastType
  | warning : ToastType
deriving DecidableEq, Repr

/-- One `toast({type, title, description, time})` call.  `description`
is `none` when the code passes an undefined value; `time = 0` means the
alert persists until dismissed. -/
structure Toast where
  type : ToastType
  title : String
  description : Option String
  time : Nat
deriving DecidableEq, Repr

/-- The session state owned by `App`: the two job lists, the location
catalog and the connection flag.  The list fields hold a `JsVal`
because `setPendingJobs` receives whatever truthy value the envelope
key carried. -/
structure ClientState where
  pendingJobs : JsVal
  completedJobs : JsVal
  locations : List Location
  connected : Bool
deriving DecidableEq, Repr

/-- The state at session start: both lists empty, no locations, the
connection flag down. -/
def initialState : ClientState :=
  ⟨JsVal.jsJobArr [], JsVal.jsJobArr [], [], false⟩

/-- `socket.onmessage`: four independent `if (message.Key)` blocks, in
source order.  Truthy `PendingJobs` / `CompletedJobs` values replace
the corresponding list wholesale; truthy `Finished` / `Failed` values
emit one toast each; falsy or absent keys do nothing. -/
def handleMessage (message : PushMessage) (s : ClientState) :
    ClientState × List Toast :=
  let s1 := match message.PendingJobs with
    | some v => if v.truthy then { s with pendingJobs := v } else s
    | none => s
  let s2 := match message.CompletedJobs with
    | some v => if v.truthy then { s1 with completedJobs := v } else s1
    | none => s1
  let finishedToasts : List Toast := match message.Finished with
    | some v =>
        if v.truthy then
          [⟨ToastType.success, "Job complete!", v.getUrl, 5000⟩]
        else []
    | none => []
  let failedToasts : List Toast := match message.Failed with
    | some v =>
        if v.truthy then
          [⟨ToastType.error, "Job failed!", v.getReason, 0⟩]
        else []
    | none => []
  (s2, finishedToasts ++ failedToasts)

/-- An envelope carrying only `{"PendingJobs": list}`. -/
def msgPendingJobs (list : List Job) : PushMessage :=
  ⟨some (JsVal.jsJobArr list), none, none, none⟩

/-- An envelope carrying only `{"Finished": {url}}`. -/
def msgFinished (url : Option String) : PushMessage :=
  ⟨none, none, some (JsVal.jsObj url none), none⟩

/-- An envelope carrying only `{"Failed": {reason}}`. -/
def msgFailed (reason : Option String) : PushMessage :=
  ⟨none, none, none, some (JsVal.jsObj none reason)⟩

/-- `socket.onclose`: only an unclean shutdown (`!msg.wasClean`) drops
the connection flag; a clean close is merely logged. -/
def handleClose (wasClean : Bool) (s : ClientState) : ClientState :=
  if !wasClean then { s with connected := false } else s

/-- `socket.onerror`: drop the connection flag. -/
def handleError (s : ClientState) : ClientState :=
  { s with connected := false }

/-- `socket.onopen`: raise the connection flag. -/
def handleOpen (s : ClientState) : ClientState :=
  { s with connected := true }

/-- The `GET /jobs` snapshot continuation: a parsed body replaces the
pending list, a network/parse failure is only logged (`.catch` with
`console.error`) and changes nothing.  No path emits a toast. -/
def applyPendingFetch (result : Option (List Job)) (s : ClientState) :
    ClientState × List Toast :=
  match result with
  | some data => ({ s with pendingJobs := JsVal.jsJobArr data }, [])
  | none => (s, [])

/-- The `GET /completed-jobs` snapshot continuation, same policy. -/
def applyCompletedFetch (result : Option (List Job)) (s : ClientState) :
    ClientState × List Toast :=
  match result with
  | some data => ({ s with completedJobs := JsVal.jsJobArr data }, [])
  | none => (s, [])

/-- The `GET /locations` snapshot continuation: the returned
`name -> path` object is converted entry-by-entry to a `Location`
array; failure is only logged. -/
def applyLocationsFetch (result : Option (List (String × String)))
    (s : ClientState) : ClientState × List Toast :=
  match result with
  | some data =>
      ({ s with locations := data.map (fun e => ⟨e.1, e.2⟩) }, [])
  | none => (s, [])

/-- One rule application step: feed the accumulated state to the
handler for a (single-key) envelope and append the toasts it emits. -/
def runStep (m : PushMessage) (p : ClientState × List Toast) :
    ClientState × List Toast :=
  let r := handleMessage m p.1
  (r.1, p.2 ++ r.2)

/-- An HTTP response as `handleSubmit` inspects it: status code, the
`ok` flag, the reason phrase and the parsed JSON body. -/
structure HttpResponse where
  status : Nat
  ok : Bool
  statusText : String
  body : String
deriving DecidableEq, Repr

/-- A genuine 409 Conflict response: status 409, not ok, reason phrase
"Conflict". -/
def is409Conflict (resp : HttpResponse) : Prop :=
  resp.status = 409 ∧ resp.ok = false ∧ resp.statusText = "Conflict"

/-- `handleSubmit`'s response continuation: on `resp.ok` clear the URL
input and return; otherwise build one toast whose title and type are
refined by two sequential `if`s on `resp.statusText`, keeping the URL
input.  Returns the URL input value afterwards and the toasts shown. -/
def handleSubmitResponse (urlInput : String) (resp : HttpResponse) :
    String × List Toast :=
  if resp.ok then ("", [])
  else
    let title := "Unexpected job startup error!"
    let ty := ToastType.error
    let p : String × ToastType :=
      if resp.statusText = "Conflict" then
        ("Conflict: job was already requested", ToastType.warning)
      else (title, ty)
    let title2 :=
      if resp.statusText = "Unprocessable Entity" then
        "Invalid Video Requested"
      else p.1
    (urlInput, [⟨p.2, title2, some resp.body, 0⟩])

/-- `jobStatus` in `JobList`: `"Finished"` and `"InProgress"` both
render as "Finished"; only a `Failed` status renders its reason. -/
def jobStatus (job : Job) : String :=
  if job.status = Status.Finished ∨ job.status = Status.InProgress then
    "Finished"
  else
    match job.status with
    | Status.Failed reason => "Failed: " ++ reason
    | _ => "Finished"

/-- A Connected session state, for concrete evaluation. -/
def connectedState : ClientState :=
  { initialState with connected := true }

/-- Concrete sample jobs for witnesses. -/
def jobA : Job :=
  ⟨"http://a", none, ⟨"loc", "/srv"⟩, 0, Status.InProgress⟩

def jobB : Job :=
  ⟨"http://b", some "B", ⟨"loc", "/srv"⟩, 1, Status.Finished⟩

def jobC : Job :=
  ⟨"http://c", none, ⟨"loc", "/srv"⟩, 2, Status.Failed "boom"⟩

/-- Claim C1: processing `PendingJobs(list)` replaces the entire
pending collection with exactly `list`, whatever the prior content;
entries of the prior content absent from `list` are gone, and no toast
is emitted. -/
theorem C1_pending_full_replace (prior : ClientState) (list : List Job) :
    handleMessage (msgPendingJobs list) prior =
      ({ prior with pendingJobs := JsVal.jsJobArr list }, []) := rfl

/-- Claim C2 counterexample: a close event with the clean flag set
while the state is Connected leaves the state Connected, not
Disconnected — the handler ignores clean closes. -/
theorem C2_clean_close_counterexample :
    ¬ ((handleClose true connectedState).connected = false) := by
  decide

/-- Claim C2 amended: a clean close leaves the whole session state
unchanged (the handler only logs it); only a close with the clean flag
unset sets the connection state to Disconnected. -/
theorem C2_close_semantics (s : ClientState) :
    handleClose true s = s ∧
    handleClose false s = { s with connected := false } :=
  ⟨rfl, rfl⟩

/-- Claim C3: a `Finished(ref)` message and a `Failed(ref, reason)`
message each leave the session state (both lists) unchanged and emit
exactly one toast: success for Finished, error carrying the reason for
Failed. -/
theorem C3_terminal_events_frame (u r : Option String) (s : ClientState) :
    handleMessage (msgFinished u) s =
      (s, [⟨ToastType.success, "Job complete!", u, 5000⟩]) ∧
    handleMessage (msgFailed r) s =
      (s, [⟨ToastType.error, "Job failed!", r, 0⟩]) :=
  ⟨rfl, rfl⟩

/-- The toasts emitted by a message depend only on its `Finished` and
`Failed` keys: one success toast with time 5000 when `Finished` is
truthy, then one error toast with time 0 when `Failed` is truthy. -/
theorem handleMessage_toasts (m : PushMessage) (s : ClientState) :
    (handleMessage m s).2 =
      (match m.Finished with
        | some v =>
            if v.truthy then
              [⟨ToastType.success, "Job complete!", v.getUrl, 5000⟩]
            else []
        | none => []) ++
      (match m.Failed with
        | some v =>
            if v.truthy then
              [⟨ToastType.error, "Job failed!", v.getReason, 0⟩]
            else []
        | none => []) := rfl

/-- Claim C4: for every envelope and state, a truthy Finished key
always yields its success alert with display duration exactly 5000 ms,
a truthy Failed key always yields its error alert with display
duration 0, and every alert the handler emits obeys those durations
(success alerts last 5000 ms, error alerts persist). -/
theorem C4_toast_durations (m : PushMessage) (s : ClientState) :
    (∀ v, m.Finished = some v → v.truthy = true →
      (⟨ToastType.success, "Job complete!", v.getUrl, 5000⟩ : Toast) ∈
        (handleMessage m s).2) ∧
    (∀ v, m.Failed = some v → v.truthy = true →
      (⟨ToastType.error, "Job failed!", v.getReason, 0⟩ : Toast) ∈
        (handleMessage m s).2) ∧
    (∀ t ∈ (handleMessage m s).2,
      (t.type = ToastType.success → t.time = 5000) ∧
      (t.type = ToastType.error → t.time = 0)) := by
  refine ⟨?_, ?_, ?_⟩
  · intro v hv htr
    rw [handleMessage_toasts, hv]
    simp [htr]
  · intro v hv htr
    rw [handleMessage_toasts, hv]
    simp [htr]
  · intro t ht
    rw [handleMessage_toasts] at ht
    cases hF : m.Finished <;> cases hG : m.Failed <;>
      rw [hF, hG] at ht <;> simp at ht
    · obtain ⟨-, rfl⟩ := ht
      simp
    · obtain ⟨-, rfl⟩ := ht
      simp
    · rcases ht with ⟨-, rfl⟩ | ⟨-, rfl⟩ <;> simp

/-- Witness for C4 on concrete single-event envelopes: one carrying
only a Finished key, one carrying only a Failed key. -/
theorem C4_toast_durations_witness :
    (⟨ToastType.success, "Job complete!", some "http://a", 5000⟩ : Toast) ∈
      (handleMessage ⟨none, none,
          some (JsVal.jsObj (some "http://a") none), none⟩
        initialState).2 ∧
    (⟨ToastType.error, "Job failed!", some "boom", 0⟩ : Toast) ∈
      (handleMessage ⟨none, none, none,
          some (JsVal.jsObj none (some "boom"))⟩ initialState).2 :=
  ⟨(C4_toast_durations ⟨none, none,
        some (JsVal.jsObj (some "http://a") none), none⟩ initialState).1
      (JsVal.jsObj (some "http://a") none) rfl rfl,
   (C4_toast_durations ⟨none, none, none,
        some (JsVal.jsObj none (some "boom"))⟩ initialState).2.1
      (JsVal.jsObj none (some "boom")) rfl rfl⟩

/-- Claim C5: a 409 Conflict response yields exactly one warning alert
whose title contains "already requested", and the URL input keeps the
submitted value. -/
theorem C5_conflict_submission (urlInput : String) (resp : HttpResponse)
    (h : is409Conflict resp) :
    handleSubmitResponse urlInput resp =
      (urlInput,
       [⟨ToastType.warning, "Conflict: job was already requested",
         some resp.body, 0⟩]) ∧
    ∃ pre suf,
      "Conflict: job was already requested" =
        pre ++ "already requested" ++ suf := by
  obtain ⟨_, hok, htext⟩ := h
  refine ⟨?_, "Conflict: job was ", "", rfl⟩
  simp [handleSubmitResponse, hok, htext]

/-- Witness for C5 at a concrete 409 response. -/
theorem C5_conflict_submission_witness :
    handleSubmitResponse "http://x" ⟨409, false, "Conflict", "dup"⟩ =
      ("http://x",
       [⟨ToastType.warning, "Conflict: job was already requested",
         some "dup", 0⟩]) :=
  (C5_conflict_submission "http://x" ⟨409, false, "Conflict", "dup"⟩
    ⟨rfl, rfl, rfl⟩).1

/-- Claim C6: a 2xx (`ok`) response clears the URL input and produces
no alert; the submission path never touches the job lists (its result
carries no state component at all). -/
theorem C6_success_submission (urlInput : String) (resp : HttpResponse)
    (h : resp.ok = true) :
    handleSubmitResponse urlInput resp = ("", []) := by
  simp [handleSubmitResponse, h]

/-- Witness for C6 at a concrete 200 response. -/
theorem C6_success_submission_witness :
    handleSubmitResponse "http://x" ⟨200, true, "OK", ""⟩ = ("", []) :=
  C6_success_submission "http://x" ⟨200, true, "OK", ""⟩ rfl

/-- Claim C7: a failed snapshot fetch (pending, completed or
locations) changes nothing and shows no alert; starting from the
initial state, the corresponding list stays empty; and a successful
fetch of one collection leaves the other collections untouched. -/
theorem C7_snapshot_failure_silent (s : ClientState)
    (r : Option (List Job)) (rl : Option (List (String × String))) :
    applyPendingFetch none s = (s, []) ∧
    applyCompletedFetch none s = (s, []) ∧
    applyLocationsFetch none s = (s, []) ∧
    (applyPendingFetch none initialState).1.pendingJobs =
      JsVal.jsJobArr [] ∧
    (applyCompletedFetch none initialState).1.completedJobs =
      JsVal.jsJobArr [] ∧
    (applyLocationsFetch none initialState).1.locations = [] ∧
    (applyPendingFetch r s).1.completedJobs = s.completedJobs ∧
    (applyPendingFetch r s).1.locations = s.locations ∧
    (applyCompletedFetch r s).1.pendingJobs = s.pendingJobs ∧
    (applyLocationsFetch rl s).1.pendingJobs = s.pendingJobs ∧
    (applyLocationsFetch rl s).1.completedJobs = s.completedJobs := by
  refine ⟨rfl, rfl, rfl, rfl, rfl, rfl, ?_, ?_, ?_, ?_, ?_⟩ <;>
    first
      | (cases r <;> rfl)
      | (cases rl <;> rfl)

/-- Claim C8: delivering the identical `PendingJobs(list)` message
twice in immediate succession produces the same final session state as
delivering it once. -/
theorem C8_redelivery_idempotent (s : ClientState) (list : List Job) :
    (handleMessage (msgPendingJobs list)
        (handleMessage (msgPendingJobs list) s).1).1 =
      (handleMessage (msgPendingJobs list) s).1 := rfl

/-- Claim C9: the completed-list status text is "Finished" both for a
Finished and for an InProgress status, and only a Failed status
renders differently, as "Failed: " followed by the reason. -/
theorem C9_status_rendering (job : Job) :
    ((job.status = Status.Finished ∨ job.status = Status.InProgress) →
      jobStatus job = "Finished") ∧
    (∀ r, job.status = Status.Failed r →
      jobStatus job = "Failed: " ++ r) := by
  constructor
  · intro h
    simp [jobStatus, h]
  · intro r hr
    simp [jobStatus, hr]

/-- Witness for C9 on concrete jobs of all three statuses. -/
theorem C9_status_rendering_witness :
    jobStatus jobA = "Finished" ∧ jobStatus jobB = "Finished" ∧
    jobStatus jobC = "Failed: boom" :=
  ⟨(C9_status_rendering jobA).1 (Or.inr rfl),
   (C9_status_rendering jobB).1 (Or.inl rfl),
   (C9_status_rendering jobC).2 "boom" rfl⟩

/-- Claim C10: the four handling rules fire independently — for every
envelope, whatever subset of the keys it carries, processing it equals
running the four single-key rules (PendingJobs, then CompletedJobs,
then Finished, then Failed) in that fixed order, each seeing only its
own key and appending its own toasts; and an envelope none of whose
four keys is truthy leaves the state unchanged and emits no toast. -/
theorem C10_independent_rules (m : PushMessage) (s : ClientState) :
    handleMessage m s =
      runStep ⟨none, none, none, m.Failed⟩
        (runStep ⟨none, none, m.Finished, none⟩
          (runStep ⟨none, m.CompletedJobs, none, none⟩
            (runStep ⟨m.PendingJobs, none, none, none⟩ (s, [])))) ∧
    (truthyO m.PendingJobs = false → truthyO m.CompletedJobs = false →
      truthyO m.Finished = false → truthyO m.Failed = false →
      handleMessage m s = (s, [])) := by
  obtain ⟨pj, cj, fin, fai⟩ := m
  refine ⟨?_, ?_⟩
  · cases fin <;> cases fai <;> simp [handleMessage, runStep]
  · intro h1 h2 h3 h4
    cases pj <;> cases cj <;> cases fin <;> cases fai <;>
      simp_all [handleMessage, truthyO]

/-- Witness for C10: a message whose four keys are all present but
falsy changes nothing and shows nothing. -/
theorem C10_independent_rules_witness :
    handleMessage ⟨some JsVal.jsNull, some (JsVal.jsBool false),
        some (JsVal.jsStr ""), some (JsVal.jsNum 0)⟩ initialState =
      (initialState, []) :=
  (C10_independent_rules
    ⟨some JsVal.jsNull, some (JsVal.jsBool false), some (JsVal.jsStr ""),
     some (JsVal.jsNum 0)⟩ initialState).2 rfl rfl rfl rfl
